import Mathlib

/-!
Verification of redshit-minimal-rs: a shallow embedding of the gamma-method
core (src/main.rs, src/gamma/mod.rs, src/gamma/gamma_randr.rs) together with
models of the two repository modules referenced by main.rs but absent from
the source tree (src/transition.rs and src/colorramp.rs), which are modelled
from the specification where noted.

Machine integers (u16, u32, i32, usize) are embedded as Nat or Int with the
relevant bounds made explicit; the f64 values of the missing colorramp module
are embedded as exact rationals.
-/

namespace Redshift

deriving instance DecidableEq for Except

/-- An exact unnormalized fraction over Int, standing for the f64 values of
the modelled colorramp module. The denominator is positive for every value
built by the operations below, which never normalize (no gcd), so that all
arithmetic reduces in the kernel. -/
structure Frac where
  num : Int
  den : Int
deriving DecidableEq

/-- Embed an integer as a fraction. -/
def Frac.ofInt (n : Int) : Frac := ⟨n, 1⟩

instance : OfNat Frac n := ⟨Frac.ofInt n⟩

/-- Fraction addition, without normalization. -/
def Frac.add (x y : Frac) : Frac := ⟨x.num * y.den + y.num * x.den, x.den * y.den⟩

/-- Fraction subtraction, without normalization. -/
def Frac.sub (x y : Frac) : Frac := ⟨x.num * y.den - y.num * x.den, x.den * y.den⟩

/-- Fraction multiplication, without normalization. -/
def Frac.mul (x y : Frac) : Frac := ⟨x.num * y.num, x.den * y.den⟩

/-- Fraction division, keeping the denominator positive. Division by a zero
fraction yields 0; it is never reached by the definitions below under the
ramp-length invariant. -/
def Frac.div (x y : Frac) : Frac :=
  if 0 < y.num then ⟨x.num * y.den, x.den * y.num⟩
  else if y.num < 0 then ⟨-(x.num * y.den), x.den * (-y.num)⟩
  else ⟨0, 1⟩

/-- Fraction power with a natural exponent. -/
def Frac.pow (x : Frac) (n : Nat) : Frac := ⟨x.num ^ n, x.den ^ n⟩

/-- Round to nearest integer, half away from zero rounded up:
round(n / d) = ⌊(2n + d) / (2d)⌋ for d > 0, as the f64-to-integer rounding
of the spec. -/
def Frac.round (x : Frac) : Int := Int.fdiv (2 * x.num + x.den) (2 * x.den)

/-- The rational value of a fraction. -/
def Frac.toRat (x : Frac) : Rat := (x.num : Rat) / (x.den : Rat)

/-- Modelled from the spec: `ColorSetting` from src/transition.rs, a module
declared by main.rs (`mod transition`) but absent from the repository.
Spec section 3: integer temperature in Kelvin (valid range 1000 to 25000),
three positive per-channel gamma exponents (neutral 1.0) and a brightness
multiplier (neutral 1.0). Exact fractions stand for the f64 fields of the
source. -/
structure ColorSetting where
  temp : Int
  gamma : Frac × Frac × Frac
  brightness : Frac
deriving DecidableEq

/-- An RGB coefficient triple of the blackbody white-point table. -/
abbrev RGB := Frac × Frac × Frac

/-- Modelled from the spec: one linear interpolation step between two channel
coefficients (spec section 4.1 step 2, blackbody table interpolation). -/
def lerp (a b w : Frac) : Frac := a.add ((b.sub a).mul w)

/-- Modelled from the spec: interpolation over the blackbody table
(spec section 4.1 step 2): at or below the first anchor the first entry is
used directly, at or above the last anchor the last entry, and between two
anchors each channel coefficient is interpolated linearly and independently. -/
def interpRGB (t : Int) : Int × RGB → List (Int × RGB) → RGB
  | x, [] => x.2
  | x, y :: ys =>
    if t ≤ x.1 then x.2
    else if t ≤ y.1 then
      let w : Frac := ⟨t - x.1, y.1 - x.1⟩
      (lerp x.2.1 y.2.1 w, lerp x.2.2.1 y.2.2.1 w, lerp x.2.2.2 y.2.2.2 w)
    else interpRGB t y ys

/-- Modelled from the spec: the blackbody white-point table of
src/colorramp.rs, which is absent from the repository. The spec fixes only
its shape (anchors sampled across 1000K to 25000K, boundary entries used
outside that range) and its qualitative content: 6500K is the neutral anchor
with all coefficients 1, at 1000K red dominates and blue is strongly
attenuated, at 25000K blue dominates and red is attenuated (spec sections
4.1 and 8). The exact reference values are not given by the spec and no
claim depends on them; the entries below realise the stated shape. -/
def blackbodyAnchors : List (Int × RGB) :=
  [(1000, (1, ⟨9, 50⟩, ⟨0, 1⟩)),
   (3500, (1, ⟨73, 100⟩, ⟨21, 50⟩)),
   (6500, (1, 1, 1)),
   (25000, (⟨16, 25⟩, ⟨77, 100⟩, 1))]

/-- Modelled from the spec: the temperature-dependent white point, obtained
by interpolating the blackbody table (spec section 4.1 step 2). -/
def whitePoint (t : Int) : RGB :=
  match blackbodyAnchors with
  | [] => (1, 1, 1)
  | x :: xs => interpRGB t x xs

/-- Modelled from the spec: the per-channel gamma curve of spec section 4.1
step 3, mapping a normalized sample x to x ^ (1 / gamma). The spec fixes the
curve exactly when the exponent 1 / gamma is a natural number (in particular
gamma = 1.0, a no-op, which is the only exponent any call site in the
repository passes); for other exponents the real-valued power has no exact
rational value and the model keeps the sample unchanged. No claim exercises
a non-neutral gamma. -/
def gammaCurve (γ x : Frac) : Frac :=
  if 0 < γ.num ∧ γ.den % γ.num = 0 then x.pow (γ.den / γ.num).toNat else x

/-- Clamp a signed 16-bit-range value into [0, 65535]
(spec section 4.1 steps 1 and 4). -/
def clamp65535 (v : Int) : Nat := (max 0 (min v 65535)).toNat

/-- Modelled from the spec: one output sample of colorramp fill
(src/colorramp.rs is absent from the repository), composing the steps of
spec section 4.1 in order: the normalized linear sample i / rampSize, the
multiplicative white-point correction, the gamma curve, the rescale to the
16-bit range with rounding, the brightness factor and the final clamp to
[0, 65535]. At the neutral setting this reduces to
clamp(round((i / rampSize) * 65536)), the linear identity ramp of step 1. -/
def fillSample (rampSize i : Nat) (coeff γ brightness : Frac) : Nat :=
  let x : Frac := (Frac.ofInt i).div (Frac.ofInt rampSize)
  let y : Frac := gammaCurve γ (x.mul coeff)
  clamp65535 (Frac.round ((y.mul (Frac.ofInt 65536)).mul brightness))

/-- Modelled from the spec: `colorramp::fill` (src/colorramp.rs is absent
from the repository). Spec section 4.1: fills the three channel buffers in
place over indices [0, rampSize); the buffers have length rampSize as a
precondition, so the model recomputes every entry of each buffer from its
index. -/
def fill (r g b : List Nat) (setting : ColorSetting) (rampSize : Nat) :
    List Nat × List Nat × List Nat :=
  let wp := whitePoint setting.temp
  ((List.range r.length).map
      (fun i => fillSample rampSize i wp.1 setting.gamma.1 setting.brightness),
   (List.range g.length).map
      (fun i => fillSample rampSize i wp.2.1 setting.gamma.2.1 setting.brightness),
   (List.range b.length).map
      (fun i => fillSample rampSize i wp.2.2 setting.gamma.2.2 setting.brightness))

/-! ### gamma_randr.rs -/

/-- From gamma_randr.rs line 10. -/
def RANDR_MAJOR_VERSION : Nat := 1

/-- From gamma_randr.rs line 11. -/
def RANDR_MINOR_VERSION : Nat := 3

/-- The error type of gamma_randr.rs lines 14 to 34: a generic protocol
error, a connection error, or the unsupported-version error carrying the
major and minor version numbers advertised by the server (u32 as Nat). -/
inductive RandrError
  | generic
  | conn
  | unsupportedVersion (major minor : Nat)
deriving DecidableEq

/-- One display controller, from gamma_randr.rs lines 65 to 79: the XCB id,
the gamma ramp size (u16 as Nat), the saved ramps used by restore, and the
scratch buffers reused by set_temperature. Ramp entries are u16 as Nat.
Invariant (spec section 3, established by start): the three channels of each
ramp triple have equal length, equal to ramp_size. -/
structure Crtc where
  id : Nat
  ramp_size : Nat
  saved_ramps : List Nat × List Nat × List Nat
  scratch : List Nat × List Nat × List Nat
deriving DecidableEq

/-- One SetCrtcGamma request: the target controller id and the three ramp
buffers pushed to it. -/
structure GammaPush where
  crtc : Nat
  red : List Nat
  green : List Nat
  blue : List Nat
deriving DecidableEq

/-- Model of the XCB connection as it is used by gamma_randr.rs:
`send_request` queues a request, a successful `flush` delivers everything
queued, and a failed flush (an I/O error on the socket) delivers nothing.
`flushOutcomes` lists the outcome of each successive flush; once exhausted,
every further flush succeeds. -/
structure Conn where
  pending : List GammaPush
  delivered : List GammaPush
  flushOutcomes : List Bool
deriving DecidableEq

/-- Queue a SetCrtcGamma request (conn.send_request in the source). -/
def Conn.send (c : Conn) (p : GammaPush) : Conn :=
  { c with pending := c.pending ++ [p] }

/-- conn.flush() from the source: on success all pending requests are
delivered to the hardware; on failure nothing pending is delivered and the
error is returned to the caller. -/
def Conn.flush (c : Conn) : Conn × Bool :=
  match c.flushOutcomes with
  | [] => ({ c with pending := [], delivered := c.delivered ++ c.pending }, true)
  | ok :: rest =>
    if ok then
      ({ pending := [], delivered := c.delivered ++ c.pending, flushOutcomes := rest }, true)
    else
      ({ c with flushOutcomes := rest }, false)

/-- The per-sample value of the scratch initialization loop of
gamma_randr.rs lines 129 to 136: `((i as f64 / ramp_size) * 65536.0) as u16`.
The `as u16` cast of an f64 truncates toward zero, saturates to the type
range and maps NaN to 0. For 0 < ramp_size ≤ 65535 and i ≤ 2 ^ 30 the f64
computation rounds i / ramp_size once and then scales by the exact power of
two 65536, and the truncated result equals ⌊i * 65536 / ramp_size⌋ exactly:
the double-rounding error is below 2 ^ (-33) while the distance of
i * 65536 / ramp_size from any integer other than itself is at least
1 / ramp_size ≥ 2 ^ (-16). For ramp_size = 0 the f64 expression is
0.0 / 0.0 = NaN ↦ 0 at i = 0 and +∞ ↦ 65535 otherwise. -/
def scratchInitVal (ramp_size i : Nat) : Nat :=
  if ramp_size = 0 then (if i = 0 then 0 else 65535)
  else min (i * 65536 / ramp_size) 65535

/-- The scratch buffer produced by the initialization loop of
gamma_randr.rs lines 131 to 136 for a buffer of length n. -/
def linearScratch (ramp_size n : Nat) : List Nat :=
  (List.range n).map (scratchInitVal ramp_size)

/-- The three scratch channels after the initialization loop of
gamma_randr.rs lines 131 to 136: the same value v is written to r[i], g[i]
and b[i], so all three channels are the same buffer of length r.len(). -/
def linearInit (ramp_size n : Nat) : List Nat × List Nat × List Nat :=
  (linearScratch ramp_size n, linearScratch ramp_size n, linearScratch ramp_size n)

/-- The ramps computed for one controller by set_crtc_temperatures
(gamma_randr.rs lines 127 to 145): the scratch buffers are re-initialized to
the linear ramp over r.len() indices and then filled by colorramp fill with
the controller ramp size. -/
def newRamps (setting : ColorSetting) (c : Crtc) : List Nat × List Nat × List Nat :=
  let n := c.scratch.1.length
  let base := linearInit c.ramp_size n
  fill base.1 base.2.1 base.2.2 setting c.ramp_size

/-- The SetCrtcGamma request issued for one controller by
set_crtc_temperatures (gamma_randr.rs lines 148 to 155). -/
def pushOf (setting : ColorSetting) (c : Crtc) : GammaPush :=
  ⟨c.id, (newRamps setting c).1, (newRamps setting c).2.1, (newRamps setting c).2.2⟩

/-- The stored state of one controller after its iteration of
set_crtc_temperatures: the scratch holds the computed ramps and, per
gamma_randr.rs line 158, saved_ramps is overwritten with the just-applied
ramps. -/
def adjustedCrtc (setting : ColorSetting) (c : Crtc) : Crtc :=
  { c with scratch := newRamps setting c, saved_ramps := newRamps setting c }

/-- One iteration of the loop of set_crtc_temperatures
(gamma_randr.rs lines 126 to 161): compute the ramps, queue the
SetCrtcGamma request, overwrite saved_ramps with the new ramps, flush. -/
def setCrtcStep (setting : ColorSetting) (conn : Conn) (c : Crtc) :
    Conn × Crtc × Bool :=
  let conn2 := conn.send (pushOf setting c)
  let c2 := adjustedCrtc setting c
  let (conn3, ok) := conn2.flush
  (conn3, c2, ok)

/-- RandrState::set_crtc_temperatures (gamma_randr.rs lines 125 to 163):
iterate over the controllers in order; a failed flush aborts the loop with
an error, leaving the remaining controllers untouched. The Bool is the
Result: true for Ok, false for the propagated flush error. -/
def set_crtc_temperatures (setting : ColorSetting) :
    Conn → List Crtc → Conn × List Crtc × Bool
  | conn, [] => (conn, [], true)
  | conn, c :: cs =>
    let (conn2, c2, ok) := setCrtcStep setting conn c
    if ok then
      let (conn3, cs2, ok2) := set_crtc_temperatures setting conn2 cs
      (conn3, c2 :: cs2, ok2)
    else (conn2, c2 :: cs, false)

/-- RandrState (gamma_randr.rs lines 82 to 86): the connection and the
controller list. The anchor window only scopes enumeration and carries no
state relevant to any claim. -/
structure RandrState where
  conn : Conn
  crtcs : List Crtc
deriving DecidableEq

/-- GammaMethod::set_temperature for RandrState
(gamma_randr.rs lines 212 to 214). -/
def RandrState.set_temperature (st : RandrState) (setting : ColorSetting) :
    RandrState × Bool :=
  let (conn, crtcs, ok) := set_crtc_temperatures setting st.conn st.crtcs
  (⟨conn, crtcs⟩, ok)

/-- The loop of RandrState::restore (gamma_randr.rs lines 197 to 208):
for each controller queue a SetCrtcGamma request with its saved ramps and
flush; a failed flush aborts with the error. -/
def restoreLoop : Conn → List Crtc → Conn × Bool
  | conn, [] => (conn, true)
  | conn, c :: cs =>
    let conn2 := conn.send ⟨c.id, c.saved_ramps.1, c.saved_ramps.2.1, c.saved_ramps.2.2⟩
    let (conn3, ok) := conn2.flush
    if ok then restoreLoop conn3 cs else (conn3, false)

/-- RandrState::restore (gamma_randr.rs lines 196 to 210). It takes the
state by shared reference: the controller records (in particular
saved_ramps and scratch) are not modified, only the connection carries the
replayed requests. -/
def RandrState.restore (st : RandrState) : Conn × Bool :=
  restoreLoop st.conn st.crtcs

/-- The requests restore issues: one push per controller carrying its
saved ramps, in controller order (gamma_randr.rs lines 197 to 205). -/
def restorePushes (crtcs : List Crtc) : List GammaPush :=
  crtcs.map (fun c => ⟨c.id, c.saved_ramps.1, c.saved_ramps.2.1, c.saved_ramps.2.2⟩)

/-- The protocol requests RandrState::init can issue before start().
QueryVersion is sent by query_version (gamma_randr.rs line 173) and
CreateWindow by init (gamma_randr.rs line 99). -/
inductive XRequest
  | queryVersion
  | createWindow
deriving DecidableEq

/-- The reply to the QueryVersion round trip: the server-advertised major
and minor RandR version (u32 as Nat). -/
structure VersionReply where
  major : Nat
  minor : Nat
deriving DecidableEq

/-- query_version (gamma_randr.rs lines 166 to 190), given the reply to the
QueryVersion round trip: the requests it issues and its result. If the
advertised version is older than 1.3 it returns the unsupported-version
error carrying the advertised major and minor numbers, before its final
flush; otherwise it succeeds. -/
def query_version (reply : VersionReply) : List XRequest × Except RandrError Unit :=
  if reply.major < RANDR_MAJOR_VERSION ∨
      (reply.major = RANDR_MAJOR_VERSION ∧ reply.minor < RANDR_MINOR_VERSION) then
    ([XRequest.queryVersion],
     Except.error (RandrError.unsupportedVersion reply.major reply.minor))
  else
    ([XRequest.queryVersion], Except.ok ())

/-- RandrState::init (gamma_randr.rs lines 89 to 122) after a successful
connect, given the reply to the QueryVersion round trip: the requests
issued and the result. query_version runs first; only on its success is the
CreateWindow request for the anchor window issued. -/
def RandrState.init (reply : VersionReply) : List XRequest × Except RandrError Unit :=
  let (reqs, res) := query_version reply
  match res with
  | Except.error e => (reqs, Except.error e)
  | Except.ok _ => (reqs ++ [XRequest.createWindow], Except.ok ())

/-! ### gamma/mod.rs -/

/-- The two backends of the registry, with the randr feature enabled
(gamma/mod.rs lines 12 to 22). -/
inductive Backend
  | randr
  | dummy
deriving DecidableEq

/-- The environment the backend initializers run against: whether
RandrState::init() succeeds (an X server is reachable and negotiates the
required version). The dummy initializer (gamma/mod.rs lines 43 to 45)
always succeeds. -/
structure XEnv where
  randrInitOk : Bool
deriving DecidableEq

/-- The initializer stored in the registry for each backend:
gamma_randr::init for randr (fallible, depending on the environment) and
init_dummy for dummy (infallible, gamma/mod.rs lines 43 to 45). -/
def gammaInit (env : XEnv) : Backend → Except String Backend
  | Backend.randr =>
    if env.randrInitOk then Except.ok Backend.randr else Except.error "randr init failed"
  | Backend.dummy => Except.ok Backend.dummy

/-- SUPPORTED_GAMMA_METHODS (gamma/mod.rs lines 12 to 22) with the randr
feature enabled: the name-to-initializer registry. The HashMap iteration
order is unspecified; the list order here follows the insertion order. -/
def SUPPORTED_GAMMA_METHODS : List (String × Backend) :=
  [("randr", Backend.randr), ("dummy", Backend.dummy)]

/-- The outcome of a Rust computation that can panic instead of returning:
either a panic or the returned value. -/
inductive PanicOr (α : Type)
  | panic
  | ret (a : α)
deriving DecidableEq

/-- init_gamma_method (gamma/mod.rs lines 57 to 77). With Some(name) the
registry is indexed directly: `SUPPORTED_GAMMA_METHODS[m]()` panics when the
key is absent (HashMap Index), per the doc comment on the function. With
None every registered backend except dummy is probed in turn and the first
successful initializer is returned; if none succeeds the call returns the
error "No gamma adjustment method available". -/
def init_gamma_method (env : XEnv) (method_name : Option String) :
    PanicOr (Except String Backend) :=
  match method_name with
  | some m =>
    match SUPPORTED_GAMMA_METHODS.lookup m with
    | some b => PanicOr.ret (gammaInit env b)
    | none => PanicOr.panic
  | none =>
    let probed := SUPPORTED_GAMMA_METHODS.filterMap (fun nb =>
      if nb.1 = "dummy" then none else (gammaInit env nb.2).toOption)
    match probed.head? with
    | some b => PanicOr.ret (Except.ok b)
    | none => PanicOr.ret (Except.error "No gamma adjustment method available")

/-- DummyMethod::restore (gamma/mod.rs lines 81 to 83): a no-op that
always returns Ok. -/
def DummyMethod.restore : Except String Unit := Except.ok ()

/-! ### main.rs -/

/-- From main.rs lines 34 to 36 (i32 as Int). -/
def NEUTRAL_TEMP : Int := 6500

/-- From main.rs line 35. -/
def MIN_TEMP : Int := 1000

/-- From main.rs line 36. -/
def MAX_TEMP : Int := 25000

/-- Mode (main.rs lines 50 to 57): reset the screen, or one-shot manual
temperature. -/
inductive Mode
  | reset
  | manual (temp : Int)
deriving DecidableEq

/-- Args (main.rs lines 68 to 73). -/
structure Args where
  help : Bool
  version : Bool
  method : Option String
  mode : Mode
deriving DecidableEq

/-- Args::defaults (main.rs lines 76 to 83). -/
def Args.defaults : Args :=
  { help := false, version := false, method := none, mode := Mode.manual NEUTRAL_TEMP }

/-- Model of Rust `str::parse::<i32>`: an optional single leading sign
followed by one or more ASCII decimal digits and nothing else, with the
value required to fit in i32; anything else is a parse error (None). -/
def parseI32 (s : String) : Option Int :=
  let cs := s.toList
  let signDigits : Int × List Char :=
    match cs with
    | '-' :: rest => (-1, rest)
    | '+' :: rest => (1, rest)
    | _ => (1, cs)
  let ds := signDigits.2
  if ds.isEmpty ∨ ¬ ds.all Char.isDigit then none
  else
    let n : Int := ds.foldl (fun acc c => acc * 10 + ((c.toNat : Int) - 48)) 0
    let v := signDigits.1 * n
    if -(2 ^ 31) ≤ v ∧ v < 2 ^ 31 then some v else none

/-- Args::update_from_args (main.rs lines 86 to 133), with the collected
argument vector (std::env::args().skip(1)) passed explicitly. An empty
vector panics at the args[0] index; a -S flag whose value fails integer
parsing panics at the unwrap (line 109); a parsed value outside
[MIN_TEMP, MAX_TEMP] returns the malformed-temperature error. The conflict
branch for -x (lines 119 to 128) can never take its error arm, because mode
is only Some when args[0] was -S, in which case args[0] is not -x. -/
def update_from_args (a : Args) (args : List String) : PanicOr (Except String Args) :=
  match args with
  | [] => PanicOr.panic
  | a0 :: rest =>
    if a0 = "-h" ∨ a0 = "--help" then PanicOr.ret (Except.ok { a with help := true })
    else if a0 = "-V" ∨ a0 = "--version" then
      PanicOr.ret (Except.ok { a with version := true })
    else if a0 = "-S" ∨ a0 = "--Set" then
      match rest.head? with
      | none => PanicOr.ret (Except.error "Missing argument for -S")
      | some a1 =>
        match parseI32 a1 with
        | none => PanicOr.panic
        | some t =>
          if t < MIN_TEMP ∨ MAX_TEMP < t then
            PanicOr.ret (Except.error
              ("Temperature must be between 1000 and 25000 (was " ++ toString t ++ ")"))
          else PanicOr.ret (Except.ok { a with mode := Mode.manual t })
    else if a0 = "-x" ∨ a0 = "--reset" then
      PanicOr.ret (Except.ok { a with mode := Mode.reset })
    else PanicOr.ret (Except.ok a)

/-- The calls main() makes on the GammaMethod interface
(main.rs lines 154 to 175). -/
inductive GammaCall
  | start
  | set_temperature (setting : ColorSetting)
  | restore
deriving DecidableEq

/-- The ordered backend calls of main() for each mode
(main.rs lines 154 to 175): both arms call start() and then
set_temperature, the Reset arm with the neutral setting
(temp NEUTRAL_TEMP, gamma all 1.0, brightness 1.0). -/
def mainCalls : Mode → List GammaCall
  | Mode.reset =>
    [GammaCall.start, GammaCall.set_temperature ⟨NEUTRAL_TEMP, (1, 1, 1), 1⟩]
  | Mode.manual t =>
    [GammaCall.start, GammaCall.set_temperature ⟨t, (1, 1, 1), 1⟩]

/-! ### Concrete example states used by counterexamples and witnesses -/

/-- The neutral color setting main() passes in Reset mode
(main.rs lines 158 to 162). -/
def neutralSetting : ColorSetting := ⟨NEUTRAL_TEMP, (1, 1, 1), 1⟩

/-- A fresh connection with nothing queued, nothing delivered and every
flush succeeding. -/
def emptyConn : Conn := ⟨[], [], []⟩

/-- A controller as captured by start(): ramp size 1, with the hardware
ramp value 12345 saved and seeded into the scratch buffers. -/
def crtcExample : Crtc := ⟨7, 1, ([12345], [12345], [12345]), ([12345], [12345], [12345])⟩

/-- The backend state right after start() on `crtcExample`. -/
def stateExample : RandrState := ⟨emptyConn, [crtcExample]⟩

/-- A controller with zero ramp size and accordingly empty ramp buffers. -/
def zeroCrtc : Crtc := ⟨3, 0, ([], [], []), ([], [], [])⟩

/-! ## Theorems -/

/-- C1: the claim says restore() pushes the ramps captured at start() even
after set_temperature calls. The code contradicts its own documentation
(the saved_ramps field is documented as the initial values used for
restore, gamma_randr.rs line 72) by overwriting saved_ramps with the
just-applied ramps on every set_temperature (line 158): on a controller
captured with ramp value 12345, one neutral set_temperature succeeds and a
subsequent restore pushes the just-applied ramp [0], not the captured
[12345]. -/
theorem randr_restore_loses_start_baseline :
    crtcExample.saved_ramps = ([12345], [12345], [12345]) ∧
    (stateExample.set_temperature neutralSetting).2 = true ∧
    restorePushes (stateExample.set_temperature neutralSetting).1.crtcs =
      [⟨7, [0], [0], [0]⟩] ∧
    (RandrState.restore (stateExample.set_temperature neutralSetting).1).1.delivered.getLast? =
      some ⟨7, [0], [0], [0]⟩ ∧
    (⟨7, [0], [0], [0]⟩ : GammaPush) ≠ ⟨7, [12345], [12345], [12345]⟩ := by
  decide

/-- C2 counterexample: requesting the unregistered backend name "wayland"
panics (HashMap index on a missing key, gamma/mod.rs line 59) instead of
returning a configuration error as a Result. -/
theorem unregistered_name_panics_counterexample :
    init_gamma_method ⟨true⟩ (some "wayland") = PanicOr.panic := by
  decide

/-- C2 amended: for every backend name that is not a key of the registry,
init_gamma_method(Some(name)) panics, as the doc comment on the function
states; it does not return an error Result and does not fall back to
another backend. -/
theorem init_gamma_method_unregistered_panics (env : XEnv) (name : String)
    (h : SUPPORTED_GAMMA_METHODS.lookup name = none) :
    init_gamma_method env (some name) = PanicOr.panic := by
  simp [init_gamma_method, h]

/-- C2 witness: "wayland" is not registered and requesting it panics. -/
theorem init_gamma_method_unregistered_panics_witness :
    SUPPORTED_GAMMA_METHODS.lookup "wayland" = none ∧
    init_gamma_method ⟨true⟩ (some "wayland") = PanicOr.panic :=
  ⟨by decide, init_gamma_method_unregistered_panics ⟨true⟩ "wayland" (by decide)⟩

/-- C3 counterexample: in Reset mode main() never invokes restore() on the
backend (main.rs lines 154 to 163). -/
theorem reset_mode_never_calls_restore :
    GammaCall.restore ∉ mainCalls Mode.reset := by
  decide

/-- C3 amended: in Reset mode, after start() has captured the baseline,
main() calls set_temperature with the neutral setting (temperature
NEUTRAL_TEMP = 6500, gamma 1.0 on all channels, brightness 1.0) rather
than restore(). -/
theorem reset_mode_sets_neutral_temperature :
    mainCalls Mode.reset =
      [GammaCall.start, GammaCall.set_temperature ⟨NEUTRAL_TEMP, (1, 1, 1), 1⟩] :=
  rfl

/-- C4 counterexample: for ramp size 3 the scratch entry at index 2 is
43690 = ⌊(2 / 3) * 65536⌋ (the `as u16` cast truncates), while the claimed
round((2 / 3) * 65536) is 43691. -/
theorem scratch_init_truncates_counterexample :
    (linearScratch 3 3)[2]? = some 43690 ∧
    round (((2 : ℚ) / 3) * 65536) = 43691 ∧
    (43690 : ℕ) ≠ 43691 :=
  ⟨by decide, by rw [round_eq]; norm_num, by decide⟩

/-- C4 amended: in the RandR set_temperature, before color correction each
scratch entry i in [0, ramp_size) is set to ⌊(i / ramp_size) * 65536⌋
(truncation toward zero, not rounding to nearest), which automatically lies
in [0, 65535], and the same buffer is written to the red, green and blue
channels. -/
theorem scratch_init_floor_value (ramp_size n i : Nat)
    (h : 0 < ramp_size) (hi : i < n) (hir : i < ramp_size) :
    (linearScratch ramp_size n)[i]? = some (i * 65536 / ramp_size) ∧
    i * 65536 / ramp_size = Nat.floor (((i : ℚ) / (ramp_size : ℚ)) * 65536) ∧
    i * 65536 / ramp_size ≤ 65535 ∧
    linearInit ramp_size n =
      (linearScratch ramp_size n, linearScratch ramp_size n, linearScratch ramp_size n) := by
  have hb : i * 65536 / ramp_size ≤ 65535 := by
    have hlt : i * 65536 / ramp_size < 65536 := by
      rw [Nat.div_lt_iff_lt_mul h]
      calc i * 65536 < ramp_size * 65536 :=
            Nat.mul_lt_mul_of_lt_of_le hir (le_refl 65536) (by norm_num)
        _ = 65536 * ramp_size := Nat.mul_comm _ _
    omega
  refine ⟨?_, ?_, hb, rfl⟩
  · simp [linearScratch, scratchInitVal, List.getElem?_range, hi, Nat.pos_iff_ne_zero.mp h,
      Nat.min_eq_left hb]
  · rw [show ((i : ℚ) / (ramp_size : ℚ)) * 65536 = ((i * 65536 : ℕ) : ℚ) / ((ramp_size : ℕ) : ℚ)
      by push_cast; ring]
    exact (Nat.floor_div_eq_div _ _).symm

/-- C4 witness: at ramp size 3, index 2 of a length-3 scratch buffer is
⌊2 * 65536 / 3⌋ = 43690 ≤ 65535. -/
theorem scratch_init_floor_value_witness :
    (0 < 3 ∧ 2 < 3) ∧
    ((linearScratch 3 3)[2]? = some (2 * 65536 / 3) ∧
     2 * 65536 / 3 = Nat.floor (((2 : ℚ) / (3 : ℚ)) * 65536) ∧
     2 * 65536 / 3 ≤ 65535 ∧
     linearInit 3 3 = (linearScratch 3 3, linearScratch 3 3, linearScratch 3 3)) :=
  ⟨⟨by decide, by decide⟩,
   by
    have h := scratch_init_floor_value 3 3 2 (by decide) (by decide) (by decide)
    push_cast at h ⊢
    exact h⟩

/-- C5: auto-probing (init_gamma_method with None) never returns the dummy
backend; it returns the randr backend (the only registered non-dummy one)
exactly when its initializer succeeds, and it returns the error
"No gamma adjustment method available" precisely when every non-dummy
initializer fails. -/
theorem auto_probe_never_dummy (env : XEnv) :
    init_gamma_method env none ≠ PanicOr.ret (Except.ok Backend.dummy) ∧
    (env.randrInitOk = true →
      init_gamma_method env none = PanicOr.ret (Except.ok Backend.randr)) ∧
    (init_gamma_method env none =
        PanicOr.ret (Except.error "No gamma adjustment method available")
      ↔ env.randrInitOk = false) := by
  obtain ⟨b⟩ := env
  cases b <;> decide

/-- C5 witness: with a working X server the probe selects randr. -/
theorem auto_probe_never_dummy_witness :
    (XEnv.mk true).randrInitOk = true ∧
    init_gamma_method ⟨true⟩ none = PanicOr.ret (Except.ok Backend.randr) :=
  ⟨rfl, (auto_probe_never_dummy ⟨true⟩).2.1 rfl⟩

/-- C6: given the QueryVersion reply, RandrState::init fails with the
unsupported-version error carrying the advertised major and minor numbers
if and only if the advertised version is lexicographically older than 1.3,
and in that case the only protocol request issued is the QueryVersion
itself (in particular no CreateWindow follows). -/
theorem randr_version_check (reply : VersionReply) :
    ((RandrState.init reply).2 =
        Except.error (RandrError.unsupportedVersion reply.major reply.minor)
      ↔ (reply.major < RANDR_MAJOR_VERSION ∨
          (reply.major = RANDR_MAJOR_VERSION ∧ reply.minor < RANDR_MINOR_VERSION))) ∧
    ((reply.major < RANDR_MAJOR_VERSION ∨
        (reply.major = RANDR_MAJOR_VERSION ∧ reply.minor < RANDR_MINOR_VERSION)) →
      (RandrState.init reply).1 = [XRequest.queryVersion]) := by
  by_cases hc : reply.major < RANDR_MAJOR_VERSION ∨
      (reply.major = RANDR_MAJOR_VERSION ∧ reply.minor < RANDR_MINOR_VERSION)
  · simp [RandrState.init, query_version, hc]
  · simp [RandrState.init, query_version, hc]

/-- C6 witness: a server advertising version 1.2 is rejected with the
unsupported-version error and only the QueryVersion request is issued. -/
theorem randr_version_check_witness :
    (RandrState.init ⟨1, 2⟩).2 =
      Except.error (RandrError.unsupportedVersion 1 2) ∧
    (RandrState.init ⟨1, 2⟩).1 = [XRequest.queryVersion] :=
  ⟨(randr_version_check ⟨1, 2⟩).1.mpr (by decide),
   (randr_version_check ⟨1, 2⟩).2 (by decide)⟩

/-- Helper for C7: running set_crtc_temperatures over pre ++ cN :: post
when the first pre.length flushes succeed and the next one fails: the call
returns the error, the controllers of pre are adjusted and their pushes
delivered, cN is adjusted in stored state but its push is still pending
(never delivered), and post is untouched. -/
theorem setLoop_fail (setting : ColorSetting) (pre : List Crtc) (cN : Crtc)
    (post : List Crtc) (d : List GammaPush) :
    set_crtc_temperatures setting
        ⟨[], d, List.replicate pre.length true ++ [false]⟩ (pre ++ cN :: post) =
      (⟨[pushOf setting cN], d ++ pre.map (pushOf setting), []⟩,
       pre.map (adjustedCrtc setting) ++ adjustedCrtc setting cN :: post,
       false) := by
  induction pre generalizing d with
  | nil => simp [set_crtc_temperatures, setCrtcStep, Conn.send, Conn.flush]
  | cons c cs ih =>
    simp only [List.length_cons, List.replicate_succ, List.cons_append,
      set_crtc_temperatures, setCrtcStep, Conn.send, Conn.flush, List.nil_append,
      if_true, List.map_cons, List.append_eq]
    rw [ih]
    simp

/-- C7 counterexample: with a single controller whose flush fails, the call
returns an error and yet that controller's stored state (scratch and
saved_ramps) has been updated to the newly computed ramp, contradicting the
claim that controllers N..M keep their stored state unchanged. -/
theorem partial_failure_counterexample :
    (RandrState.set_temperature
        ⟨⟨[], [], [false]⟩, [⟨9, 1, ([5], [5], [5]), ([5], [5], [5])⟩]⟩
        neutralSetting).2 = false ∧
    (RandrState.set_temperature
        ⟨⟨[], [], [false]⟩, [⟨9, 1, ([5], [5], [5]), ([5], [5], [5])⟩]⟩
        neutralSetting).1.crtcs =
      [⟨9, 1, ([0], [0], [0]), ([0], [0], [0])⟩] ∧
    (⟨9, 1, ([0], [0], [0]), ([0], [0], [0])⟩ : Crtc) ≠
      ⟨9, 1, ([5], [5], [5]), ([5], [5], [5])⟩ := by
  decide

/-- C7 amended: if the flush for controller N fails (after the first N - 1
succeeded), set_crtc_temperatures returns an error; controllers 1..N-1 keep
the newly applied ramps (stored state updated, pushes delivered);
controller N's stored scratch and saved_ramps are also updated to the new
ramp even though its push is never delivered to the hardware (it stays
pending on the broken connection); and controllers N+1..M are completely
untouched. No rollback occurs. -/
theorem partial_failure_semantics (setting : ColorSetting) (conn : Conn)
    (pre : List Crtc) (cN : Crtc) (post : List Crtc)
    (hp : conn.pending = [])
    (hf : conn.flushOutcomes = List.replicate pre.length true ++ [false]) :
    (set_crtc_temperatures setting conn (pre ++ cN :: post)).2.2 = false ∧
    (set_crtc_temperatures setting conn (pre ++ cN :: post)).2.1 =
      pre.map (adjustedCrtc setting) ++ adjustedCrtc setting cN :: post ∧
    (set_crtc_temperatures setting conn (pre ++ cN :: post)).1.delivered =
      conn.delivered ++ pre.map (pushOf setting) ∧
    (set_crtc_temperatures setting conn (pre ++ cN :: post)).1.pending =
      [pushOf setting cN] := by
  obtain ⟨p, d, f⟩ := conn
  simp only at hp hf
  subst hp
  subst hf
  rw [setLoop_fail setting pre cN post d]
  simp

/-- C7 witness: one successfully adjusted controller, then a failed flush
on the second, with a third left untouched. -/
theorem partial_failure_semantics_witness :
    ((Conn.mk [] [] [true, false]).pending = [] ∧
     (Conn.mk [] [] [true, false]).flushOutcomes =
       List.replicate [crtcExample].length true ++ [false]) ∧
    ((set_crtc_temperatures neutralSetting ⟨[], [], [true, false]⟩
        ([crtcExample] ++ zeroCrtc :: [⟨8, 1, ([9], [9], [9]), ([9], [9], [9])⟩])).2.2 = false ∧
     (set_crtc_temperatures neutralSetting ⟨[], [], [true, false]⟩
        ([crtcExample] ++ zeroCrtc :: [⟨8, 1, ([9], [9], [9]), ([9], [9], [9])⟩])).2.1 =
       [crtcExample].map (adjustedCrtc neutralSetting) ++
         adjustedCrtc neutralSetting zeroCrtc :: [⟨8, 1, ([9], [9], [9]), ([9], [9], [9])⟩] ∧
     (set_crtc_temperatures neutralSetting ⟨[], [], [true, false]⟩
        ([crtcExample] ++ zeroCrtc :: [⟨8, 1, ([9], [9], [9]), ([9], [9], [9])⟩])).1.delivered =
       (Conn.mk [] [] [true, false]).delivered ++ [crtcExample].map (pushOf neutralSetting) ∧
     (set_crtc_temperatures neutralSetting ⟨[], [], [true, false]⟩
        ([crtcExample] ++ zeroCrtc :: [⟨8, 1, ([9], [9], [9]), ([9], [9], [9])⟩])).1.pending =
       [pushOf neutralSetting zeroCrtc]) :=
  ⟨⟨rfl, rfl⟩,
   partial_failure_semantics neutralSetting ⟨[], [], [true, false]⟩
     [crtcExample] zeroCrtc [⟨8, 1, ([9], [9], [9]), ([9], [9], [9])⟩] rfl rfl⟩

/-- Helper for C8: restoring over a connection with empty pending queue and
no scheduled flush failures delivers exactly one push per controller
carrying its saved ramps, and succeeds. -/
theorem restoreLoop_ok (d : List GammaPush) (crtcs : List Crtc) :
    restoreLoop ⟨[], d, []⟩ crtcs = (⟨[], d ++ restorePushes crtcs, []⟩, true) := by
  induction crtcs generalizing d with
  | nil => simp [restoreLoop, restorePushes]
  | cons c cs ih =>
    simp only [restoreLoop, Conn.send, Conn.flush, List.nil_append, restorePushes,
      List.map_cons, if_true]
    rw [ih]
    simp [restorePushes]

/-- C8: restore() is idempotent: it does not modify the controller records
(it takes the state by shared reference), so a second restore from the
resulting connection pushes exactly the same ramp values as the first and
returns the same result, and restore succeeds (returns Ok) for any backend
state with a working connection, in particular when set_temperature was
never called after start(). The dummy backend restore is Ok as well. -/
theorem restore_idempotent (st : RandrState)
    (hp : st.conn.pending = []) (hf : st.conn.flushOutcomes = []) :
    (st.restore).2 = true ∧
    (st.restore).1.delivered = st.conn.delivered ++ restorePushes st.crtcs ∧
    (RandrState.restore ⟨(st.restore).1, st.crtcs⟩).2 = (st.restore).2 ∧
    (RandrState.restore ⟨(st.restore).1, st.crtcs⟩).1.delivered =
      (st.restore).1.delivered ++ restorePushes st.crtcs ∧
    DummyMethod.restore = Except.ok () := by
  obtain ⟨⟨p, d, f⟩, crtcs⟩ := st
  simp only at hp hf
  subst hp
  subst hf
  simp [RandrState.restore, restoreLoop_ok, DummyMethod.restore]

/-- C8 witness: restoring twice on the state captured at start() pushes the
saved ramps both times and succeeds both times, with no set_temperature in
between. -/
theorem restore_idempotent_witness :
    (stateExample.conn.pending = [] ∧ stateExample.conn.flushOutcomes = []) ∧
    ((stateExample.restore).2 = true ∧
     (stateExample.restore).1.delivered =
       stateExample.conn.delivered ++ restorePushes stateExample.crtcs ∧
     (RandrState.restore ⟨(stateExample.restore).1, stateExample.crtcs⟩).2 =
       (stateExample.restore).2 ∧
     (RandrState.restore ⟨(stateExample.restore).1, stateExample.crtcs⟩).1.delivered =
       (stateExample.restore).1.delivered ++ restorePushes stateExample.crtcs ∧
     DummyMethod.restore = Except.ok ()) :=
  ⟨⟨rfl, rfl⟩, restore_idempotent stateExample rfl rfl⟩

/-- C9: for a controller with zero ramp size and empty captured buffers,
set_temperature computes no per-sample value (the scratch initialization
and the color computation both run over the empty index range, so the
division by ramp_size in the loop body is never reached), no out-of-range
write occurs, and the call returns Ok; the stored buffers stay empty. -/
theorem zero_ramp_size_noop (conn : Conn) (c : Crtc) (setting : ColorSetting)
    (_h0 : c.ramp_size = 0) (hs : c.scratch.1 = []) (hf : conn.flushOutcomes = []) :
    linearScratch c.ramp_size c.scratch.1.length = [] ∧
    newRamps setting c = ([], [], []) ∧
    (RandrState.set_temperature ⟨conn, [c]⟩ setting).2 = true ∧
    (RandrState.set_temperature ⟨conn, [c]⟩ setting).1.crtcs =
      [{ c with scratch := ([], [], []), saved_ramps := ([], [], []) }] := by
  have hlen : c.scratch.1.length = 0 := by rw [hs]; rfl
  have hramps : newRamps setting c = ([], [], []) := by
    simp [newRamps, linearInit, linearScratch, fill, hlen]
  refine ⟨by simp [linearScratch, hlen], hramps, ?_, ?_⟩
  · simp [RandrState.set_temperature, set_crtc_temperatures, setCrtcStep,
      Conn.send, Conn.flush, hf]
  · simp [RandrState.set_temperature, set_crtc_temperatures, setCrtcStep,
      Conn.send, Conn.flush, hf, adjustedCrtc, hramps]

/-- C9 witness: the zero-ramp-size controller is processed without any
sample computation and the call returns Ok. -/
theorem zero_ramp_size_noop_witness :
    (zeroCrtc.ramp_size = 0 ∧ zeroCrtc.scratch.1 = [] ∧ emptyConn.flushOutcomes = []) ∧
    (linearScratch zeroCrtc.ramp_size zeroCrtc.scratch.1.length = [] ∧
     newRamps neutralSetting zeroCrtc = ([], [], []) ∧
     (RandrState.set_temperature ⟨emptyConn, [zeroCrtc]⟩ neutralSetting).2 = true ∧
     (RandrState.set_temperature ⟨emptyConn, [zeroCrtc]⟩ neutralSetting).1.crtcs =
       [{ zeroCrtc with scratch := ([], [], []), saved_ramps := ([], [], []) }]) :=
  ⟨⟨rfl, rfl, rfl⟩, zero_ramp_size_noop emptyConn zeroCrtc neutralSetting rfl rfl rfl⟩

/-- C10: CLI parsing is not total: an empty argument vector panics on the
args[0] index; "-S" followed by a value that fails integer parsing panics
on the unwrap; and "-S" with an integer t returns the malformed-temperature
error exactly when t lies outside [MIN_TEMP, MAX_TEMP] = [1000, 25000],
otherwise Ok with Mode::Manual(t). -/
theorem update_from_args_totality :
    update_from_args Args.defaults [] = PanicOr.panic ∧
    (∀ s, parseI32 s = none →
      update_from_args Args.defaults ["-S", s] = PanicOr.panic) ∧
    (∀ s t, parseI32 s = some t →
      ((t < MIN_TEMP ∨ MAX_TEMP < t) →
        update_from_args Args.defaults ["-S", s] =
          PanicOr.ret (Except.error
            ("Temperature must be between 1000 and 25000 (was " ++ toString t ++ ")"))) ∧
      (MIN_TEMP ≤ t → t ≤ MAX_TEMP →
        update_from_args Args.defaults ["-S", s] =
          PanicOr.ret (Except.ok { Args.defaults with mode := Mode.manual t }))) := by
  refine ⟨rfl, fun s hs => ?_, fun s t ht => ?_⟩
  · simp [update_from_args, hs]
  · have base : update_from_args Args.defaults ["-S", s] =
        if t < MIN_TEMP ∨ MAX_TEMP < t then
          PanicOr.ret (Except.error
            ("Temperature must be between 1000 and 25000 (was " ++ toString t ++ ")"))
        else PanicOr.ret (Except.ok { Args.defaults with mode := Mode.manual t }) := by
      simp [update_from_args, ht]
    refine ⟨fun hout => ?_, fun h1 h2 => ?_⟩
    · rw [base, if_pos hout]
    · rw [base, if_neg (not_or.mpr ⟨not_lt.mpr h1, not_lt.mpr h2⟩)]

/-- C10 witness: the empty vector panics, "-S abc" panics on the failed
parse, and "-S 500" reports the out-of-range temperature error. -/
theorem update_from_args_totality_witness :
    (parseI32 "abc" = none ∧ parseI32 "500" = some 500 ∧
      ((500 : Int) < MIN_TEMP ∨ MAX_TEMP < (500 : Int))) ∧
    update_from_args Args.defaults [] = PanicOr.panic ∧
    update_from_args Args.defaults ["-S", "abc"] = PanicOr.panic ∧
    update_from_args Args.defaults ["-S", "500"] =
      PanicOr.ret (Except.error
        ("Temperature must be between 1000 and 25000 (was " ++ toString (500 : Int) ++ ")")) :=
  ⟨⟨by decide, by decide, by decide⟩,
   update_from_args_totality.1,
   update_from_args_totality.2.1 "abc" (by decide),
   (update_from_args_totality.2.2 "500" 500 (by decide)).1 (by decide)⟩

end Redshift
